import Mathlib

/-
Shallow embedding of `src/main.py` (netbox_tools, client-filtered revision).

Modelling conventions:
- pynetbox record attributes that the script reaches through a
  `hasattr(...) and <truthy> and ...` chain are modelled as `Option`:
  `some v` means the whole access chain succeeds and yields the value `v`,
  `none` means some step of the chain fails (missing attribute or falsy value).
- Python dicts are modelled as association lists.  The interface map
  (`virtual_interfaces_map`) only ever gains bindings, so we prepend and let
  `List.lookup` (first match) realise Python's last-write-wins lookup.
  The IP map (`interface_to_ips_map`, a `defaultdict(list)` that only appends)
  is modelled by `ipAppend`, which appends to the binding of the key in place.
- Environment variables, connection success, fetch outcomes and the prior
  existence of the output file are inputs (`World`); prints used purely for
  progress logging are not modelled, but the externally visible actions
  (the env-error message, API calls, record scans) appear in an event trace,
  and the file written by the `finally` block is the `output` field.
- A fetch that raises mid-iteration is `FetchOutcome.fail seen e`: the
  records of `seen` were processed before the exception `e` was raised.
-/

namespace Netbox

/-- A device reachable from an interface record; `name = none` models a device
object without a `name` attribute (the `hasattr(iface.device, 'name')` guard). -/
structure Device where
  name : Option String
deriving DecidableEq

/-- A DCIM interface record as the script reads it.  `kind`/`type` are
`some v` exactly when `hasattr`, truthiness and the `.value` access all
succeed with value `v` (main.py lines 89-97); `device = none` models a falsy
`iface.device`; `name = none` models `hasattr(iface, 'name')` failing. -/
structure Interface where
  id : Nat
  kind : Option String
  type : Option String
  device : Option Device
  name : Option String
deriving DecidableEq

/-- An IPAM IP-address record.  `assigned_object_id = none` models Python
`None`; `some 0` is still falsy for the guard on main.py line 170. -/
structure IPAddress where
  assigned_object_type : String
  assigned_object_id : Option Nat
  address : String
deriving DecidableEq

/-- The client-side virtual test of main.py lines 85-99: the `kind` value is
checked first, and the `type` value only when `kind` did not match. -/
def is_interface_virtual (i : Interface) : Bool :=
  let fromKind : Bool :=
    match i.kind with
    | some v => v == "virtual"
    | none => false
  if fromKind then true
  else
    match i.type with
    | some v => v == "virtual"
    | none => false

/-- `virtual_interfaces_map` : interface id ↦ (device name, interface name). -/
abbrev VMap := List (Nat × (String × String))

/-- `virtual_interfaces_map` membership (`interface_id in virtual_interfaces_map`). -/
def dictMem (m : VMap) (k : Nat) : Bool :=
  (m.lookup k).isSome

/-- One iteration of the interface loop body that touches the map
(main.py lines 108-114): a virtual interface is recorded only when
`iface.device` is truthy, the device has a `name` attribute and the
interface has a `name` attribute. -/
def scanIfaceStep (m : VMap) (i : Interface) : VMap :=
  if is_interface_virtual i then
    match i.device with
    | some d =>
      match d.name, i.name with
      | some dn, some nm => (i.id, (dn, nm)) :: m
      | _, _ => m
    | none => m
  else m

/-- The interface scan/filter pass over the fetched records. -/
def build_virtual_interfaces_map (l : List Interface) : VMap :=
  l.foldl scanIfaceStep []

/-- `interface_to_ips_map` : interface id ↦ list of IP address strings. -/
abbrev IpMap := List (Nat × List String)

/-- `interface_to_ips_map[interface_id].append(ip_obj.address)` on a
`defaultdict(list)`: append to the existing binding, or bind the key at the
end (Python dicts append new keys in insertion order). -/
def ipAppend : IpMap → Nat → String → IpMap
  | [], k, v => [(k, [v])]
  | (k1, vs) :: rest, k, v =>
    if k1 = k then (k1, vs ++ [v]) :: rest
    else (k1, vs) :: ipAppend rest k v

/-- Addresses recorded under key `k`. -/
def lookupIps (m : IpMap) (k : Nat) : List String :=
  (m.lookup k).getD []

/-- One iteration of the IP loop body (main.py lines 170-174).  The guard is
`ip_obj.assigned_object_type == 'dcim.interface' and ip_obj.assigned_object_id`,
where the second conjunct is Python truthiness: `None` and `0` both fail it. -/
def scanIpStep (vmap : VMap) (m : IpMap) (ip : IPAddress) : IpMap :=
  match ip.assigned_object_id with
  | some iid =>
    if ip.assigned_object_type == "dcim.interface" && iid != 0 then
      if dictMem vmap iid then ipAppend m iid ip.address else m
    else m
  | none => m

/-- The IP scan/mapping pass over the fetched IP records. -/
def build_interface_to_ips_map (vmap : VMap) (ips : List IPAddress) : IpMap :=
  ips.foldl (scanIpStep vmap) []

/-- The declarative selection criterion used to characterise the IP join:
record `ip` contributes its address under key `k`. -/
def selIp (vmap : VMap) (k : Nat) (ip : IPAddress) : Bool :=
  ip.assigned_object_type == "dcim.interface" &&
  ip.assigned_object_id == some k && (k != 0) && dictMem vmap k

/-- Modelled from the spec: "Join interfaces to IPs by interface identifier"
and "one data row per virtual-interface/IP pair" with the columns
parent hostname, IP address, interface name.  Step 3 of the source
("Combine the data", main.py lines 182-184) is an elided placeholder comment,
so the rows the export is supposed to contain are defined here from the
spec's words, for comparison with what the program actually writes. -/
def joined_rows (vmap : VMap) (ipmap : IpMap) : List (List String) :=
  vmap.foldr
    (fun e acc => ((lookupIps ipmap e.1).map (fun a => [e.2.1, a, e.2.2])) ++ acc) []

/-- The module-level environment the script reads (main.py lines 11-12);
`none` models an unset variable. -/
structure Env where
  netbox_url : Option String
  netbox_token : Option String
deriving DecidableEq

/-- Python truthiness of an optional string: `None` and `""` are falsy. -/
def truthyStr : Option String → Bool
  | none => false
  | some s => s != ""

/-- Negation of `not NETBOX_URL or not NETBOX_TOKEN` (main.py line 19). -/
def envOk (e : Env) : Bool :=
  truthyStr e.netbox_url && truthyStr e.netbox_token

/-- The exception kinds the fetch loops can raise, matching the `except`
clauses of main.py lines 187-198 (`otherError` is any other `Exception`). -/
inductive FetchError where
  | requestError
  | attributeError
  | memoryError
  | otherError
deriving DecidableEq

/-- Outcome of iterating a paginated remote collection: either every record
is delivered, or an exception `e` is raised after the records of `seen`
were already processed. -/
inductive FetchOutcome (α : Type) where
  | ok (items : List α)
  | fail (seen : List α) (e : FetchError)
deriving DecidableEq

/-- The records the loop body actually ran on. -/
def fetchItems {α : Type} : FetchOutcome α → List α
  | .ok l => l
  | .fail l _ => l

/-- Whether the iteration ended in an exception. -/
def fetchFailed {α : Type} : FetchOutcome α → Bool
  | .ok _ => false
  | .fail _ _ => true

/-- Externally visible actions of a run, in order. -/
inductive Event where
  | printedEnvError
  | apiStatus
  | fetchInterfaces
  | scanInterface (id : Nat)
  | fetchIPs
  | scanIP (addr : String)
deriving DecidableEq

/-- Everything outside the script that a run depends on. -/
structure World where
  env : Env
  connect_ok : Bool
  interfaces : FetchOutcome Interface
  ips : FetchOutcome IPAddress
  file_exists : Bool
deriving DecidableEq

/-- How a run ends. -/
inductive ExitStatus where
  | exited (code : Nat)
  | finished
deriving DecidableEq

/-- Result of a run: how it ended, the event trace, and the rows written to
`OUTPUT_CSV_FILE` (`none` = the file was not touched). -/
structure RunResult where
  exit : ExitStatus
  events : List Event
  output : Option (List (List String))
deriving DecidableEq

/-- The fixed CSV header (main.py line 42). -/
def header : List String :=
  ["parent_hostname", "ip_address", "interface_name"]

/-- The `finally` block of main.py lines 199-220: if any data rows were
collected, write header plus rows; otherwise create a header-only file, but
only when the output file does not already exist. -/
def write_csv (csv_data_rows : List (List String)) (file_exists : Bool) :
    Option (List (List String)) :=
  if csv_data_rows.isEmpty = false then some (header :: csv_data_rows)
  else if file_exists = false then some [header]
  else none

/-- The whole run of `main()`.  The env check exits first; a connection
failure exits with status 1; otherwise the `try` block scans all fetched
interfaces, returns early when no virtual interface was mapped, and only then
iterates the full IP collection.  Any fetch exception lands in the `except`
clauses, and the `finally` block runs in every case that reaches the `try`.
`csv_data_rows` is never appended to anywhere in this revision: step 3
("Combine the data") is an elided placeholder comment, so the list the
`finally` block sees is always `[]`. -/
def runMain (w : World) : RunResult :=
  if envOk w.env = false then
    { exit := .exited 1, events := [Event.printedEnvError], output := none }
  else if w.connect_ok = false then
    { exit := .exited 1, events := [Event.apiStatus], output := none }
  else
    let ifs := fetchItems w.interfaces
    let evIf := [Event.apiStatus, Event.fetchInterfaces] ++
      ifs.map (fun i => Event.scanInterface i.id)
    let vmap := build_virtual_interfaces_map ifs
    let events :=
      if fetchFailed w.interfaces then evIf
      else if vmap.isEmpty then evIf
      else
        evIf ++ [Event.fetchIPs] ++
          (fetchItems w.ips).map (fun ip => Event.scanIP ip.address)
    let csv_data_rows : List (List String) := []
    { exit := .finished, events := events,
      output := write_csv csv_data_rows w.file_exists }

/-- No IP-fetch and no interface-scan event occurs in the list. -/
def noIpFetchOrIfaceScan : List Event → Bool
  | [] => true
  | Event.fetchIPs :: _ => false
  | Event.scanInterface _ :: _ => false
  | _ :: rest => noIpFetchOrIfaceScan rest

/-- After the first IP-fetch event, no interface-scan event and no second
IP-fetch event ever occurs: the interface scan completes before the IP
collection is fetched, and it is fetched at most once. -/
def ifaceScansDone : List Event → Bool
  | [] => true
  | Event.fetchIPs :: rest => noIpFetchOrIfaceScan rest
  | _ :: rest => ifaceScansDone rest

/-- No IP activity at all: the IP collection is never fetched or scanned. -/
def ipActivityFree : List Event → Bool
  | [] => true
  | Event.fetchIPs :: _ => false
  | Event.scanIP _ :: _ => false
  | _ :: rest => ipActivityFree rest

/-- Every fetched interface record was scanned (full-table scan with
client-side filtering, never a server-side filter). -/
def allScanned (w : World) : Bool :=
  (fetchItems w.interfaces).all
    (fun i => decide (Event.scanInterface i.id ∈ (runMain w).events))

/-- Whether one of the modelled exceptions was actually raised during data
fetching in the run on `w`: either the interface iteration raised, or it
completed, the virtual map was non-empty, and the IP iteration raised
(when the virtual map is empty the IP collection is never iterated). -/
def errorRaised (w : World) : Bool :=
  if fetchFailed w.interfaces then true
  else if (build_virtual_interfaces_map (fetchItems w.interfaces)).isEmpty then false
  else fetchFailed w.ips

/- Concrete records and worlds used for counterexamples and witnesses. -/

/-- An environment with both variables set. -/
def envGood : Env :=
  { netbox_url := some "https://netbox.example.com", netbox_token := some "tok" }

/-- A well-formed virtual interface: id 1, named `Vlan10`, on device `sw1`. -/
def iface1 : Interface :=
  { id := 1, kind := some "virtual", type := none,
    device := some { name := some "sw1" }, name := some "Vlan10" }

/-- A virtual interface whose `device` attribute is falsy (`None`). -/
def iface_nodev : Interface :=
  { id := 7, kind := some "virtual", type := none,
    device := none, name := some "eth0" }

/-- A virtual interface whose id is the falsy integer 0. -/
def iface_id0 : Interface :=
  { id := 0, kind := some "virtual", type := none,
    device := some { name := some "dev" }, name := some "Vlan1" }

/-- A physical interface (not virtual under either attribute). -/
def iface_phys : Interface :=
  { id := 3, kind := none, type := some "1000base-t",
    device := some { name := some "sw2" }, name := some "Gi0/1" }

/-- An IP address assigned to interface 1. -/
def ip1 : IPAddress :=
  { assigned_object_type := "dcim.interface", assigned_object_id := some 1,
    address := "10.0.0.1/24" }

/-- An IP address assigned to the interface with the falsy id 0. -/
def ip_id0 : IPAddress :=
  { assigned_object_type := "dcim.interface", assigned_object_id := some 0,
    address := "10.0.0.2/24" }

/-- A fully successful run over one virtual interface and its IP, with no
pre-existing output file. -/
def w1 : World :=
  { env := envGood, connect_ok := true, interfaces := .ok [iface1],
    ips := .ok [ip1], file_exists := false }

/-- A run whose interface fetch raises a request error immediately. -/
def w6 : World :=
  { env := envGood, connect_ok := true,
    interfaces := .fail [] .requestError, ips := .ok [], file_exists := false }

/-- A successful run used to witness the pipeline-order theorem. -/
def w7 : World :=
  { env := envGood, connect_ok := true, interfaces := .ok [iface1, iface_phys],
    ips := .ok [ip1], file_exists := false }

/-- A run with `NETBOX_URL` unset. -/
def w8 : World :=
  { env := { netbox_url := none, netbox_token := some "tok" },
    connect_ok := true, interfaces := .ok [], ips := .ok [], file_exists := false }

/-- A run that scans only a physical interface, so no virtual interface is
found, with no pre-existing output file. -/
def w9 : World :=
  { env := envGood, connect_ok := true, interfaces := .ok [iface_phys],
    ips := .ok [ip1], file_exists := false }

/-- A run with a pre-existing output file. -/
def w10 : World :=
  { env := envGood, connect_ok := true, interfaces := .ok [iface1],
    ips := .ok [ip1], file_exists := true }

/- Helper lemmas. -/

/-- Unfolding `List.lookup` on a cons cell into an `if`. -/
theorem lookup_cons_ite {β : Type} (k k' : Nat) (v : β) (rest : List (Nat × β)) :
    List.lookup k' ((k, v) :: rest) =
      if k' = k then some v else List.lookup k' rest := by
  by_cases h : k' = k
  · simp [List.lookup_cons, h]
  · have hb : (k' == k) = false := beq_eq_false_iff_ne.mpr h
    simp [List.lookup_cons, hb, h]

/-- `ipAppend` changes only the binding of the key it appends to. -/
theorem lookupIps_ipAppend (m : IpMap) (k : Nat) (v : String) (k' : Nat) :
    lookupIps (ipAppend m k v) k' =
      if k' = k then lookupIps m k' ++ [v] else lookupIps m k' := by
  induction m with
  | nil =>
    by_cases h : k' = k
    · subst h
      simp [ipAppend, lookupIps, lookup_cons_ite]
    · simp only [ipAppend, lookupIps, lookup_cons_ite, if_neg h]
  | cons hd tl ih =>
    obtain ⟨k1, vs⟩ := hd
    by_cases h1 : k1 = k
    · subst h1
      by_cases h2 : k' = k1
      · subst h2
        simp [ipAppend, lookupIps, lookup_cons_ite]
      · simp [ipAppend, lookupIps, lookup_cons_ite, h2]
    · by_cases h2 : k' = k1
      · subst h2
        simp [ipAppend, lookupIps, lookup_cons_ite, h1]
      · simp only [ipAppend, if_neg h1]
        simp [lookupIps, lookup_cons_ite, h2] at ih ⊢
        exact ih

/-- One IP-loop iteration appends the address under `k` exactly when the
record satisfies the selection criterion for `k`. -/
theorem lookupIps_scanIpStep (vmap : VMap) (m : IpMap) (ip : IPAddress) (k : Nat) :
    lookupIps (scanIpStep vmap m ip) k =
      lookupIps m k ++ (if selIp vmap k ip = true then [ip.address] else []) := by
  cases hid : ip.assigned_object_id with
  | none => simp [scanIpStep, selIp, hid]
  | some iid =>
    by_cases hk : k = iid
    · subst hk
      by_cases hty : ip.assigned_object_type = "dcim.interface"
      · by_cases hz : k = 0
        · subst hz
          simp [scanIpStep, selIp, hid, hty]
        · by_cases hmem : dictMem vmap k = true
          · simp [scanIpStep, selIp, hid, hty, hz, hmem, lookupIps_ipAppend]
          · simp [scanIpStep, selIp, hid, hty, hz, hmem]
      · simp [scanIpStep, selIp, hid, hty]
    · have hne : iid ≠ k := fun hh => hk hh.symm
      have hsel : selIp vmap k ip = false := by
        simp [selIp, hid, hne]
      simp only [scanIpStep, hid, hsel, if_neg]
      split
      · split
        · simp [lookupIps_ipAppend, hk]
        · simp
      · simp

/-- The IP mapping pass, characterised per key, relative to a start map. -/
theorem lookupIps_foldl (vmap : VMap) (ips : List IPAddress) (m : IpMap) (k : Nat) :
    lookupIps (ips.foldl (scanIpStep vmap) m) k =
      lookupIps m k ++ (ips.filter (selIp vmap k)).map (fun ip => ip.address) := by
  induction ips generalizing m with
  | nil => simp
  | cons ip rest ih =>
    simp only [List.foldl_cons, ih, lookupIps_scanIpStep, List.filter_cons]
    by_cases h : selIp vmap k ip = true <;> simp [h, List.append_assoc]

/- Claim theorems. -/

/-- C2: an interface record is classified virtual if and only if its `kind`
attribute's value equals "virtual" or its `type` attribute's value equals
"virtual"; records where neither attribute chain yields "virtual" are never
classified virtual. -/
theorem virtual_iff_kind_or_type (i : Interface) :
    is_interface_virtual i = true ↔
      (i.kind = some "virtual" ∨ i.type = some "virtual") := by
  rcases i with ⟨id, k, t, d, n⟩
  simp only [is_interface_virtual]
  cases k with
  | none =>
    cases t with
    | none => simp
    | some v => by_cases hv : v = "virtual" <;> simp [hv]
  | some v =>
    by_cases hv : v = "virtual"
    · simp [hv]
    · have hb : (v == "virtual") = false := beq_eq_false_iff_ne.mpr hv
      cases t with
      | none => simp [hb, hv]
      | some u => by_cases hu : u = "virtual" <;> simp [hb, hv, hu]

/-- C3 counterexample: with a virtual interface of id 0 in the map and an IP
record whose assigned-object type tag is 'dcim.interface' and whose
assigned-object id 0 is a key of the map, the address is nevertheless not
added, because the guard also requires Python truthiness of the id. -/
theorem ip_id0_not_joined :
    dictMem (build_virtual_interfaces_map [iface_id0]) 0 = true ∧
    ip_id0.assigned_object_type = "dcim.interface" ∧
    ip_id0.assigned_object_id = some 0 ∧
    build_interface_to_ips_map (build_virtual_interfaces_map [iface_id0]) [ip_id0] = [] := by
  refine ⟨?_, rfl, rfl, ?_⟩ <;> decide

/-- C3 (amended): the addresses recorded under an interface id `k` are
exactly those of the scanned IP records whose assigned-object type tag equals
'dcim.interface', whose assigned-object id is `some k` with `k` truthy
(non-zero), and where `k` is a key of the previously built
virtual-interface map. -/
theorem ip_join_characterisation (vmap : VMap) (ips : List IPAddress) (k : Nat) :
    lookupIps (build_interface_to_ips_map vmap ips) k =
      (ips.filter (selIp vmap k)).map (fun ip => ip.address) := by
  have h := lookupIps_foldl vmap ips [] k
  simpa [build_interface_to_ips_map, lookupIps] using h

/-- C4: whenever the `finally` block writes the output file, the first row is
exactly the fixed 3-column header. -/
theorem csv_header_first (rows : List (List String)) (ex : Bool)
    (out : List (List String)) (h : write_csv rows ex = some out) :
    out.head? = some ["parent_hostname", "ip_address", "interface_name"] := by
  unfold write_csv at h
  split at h
  · injection h with h
    subst h
    rfl
  · split at h
    · injection h with h
      subst h
      rfl
    · cases h

/-- Witness for C4 at a concrete non-empty row list. -/
theorem csv_header_first_witness :
    write_csv [["sw1", "10.0.0.1/24", "Vlan10"]] true =
      some (header :: [["sw1", "10.0.0.1/24", "Vlan10"]]) ∧
    (header :: [["sw1", "10.0.0.1/24", "Vlan10"]]).head? =
      some ["parent_hostname", "ip_address", "interface_name"] :=
  ⟨rfl, csv_header_first [["sw1", "10.0.0.1/24", "Vlan10"]] true
    (header :: [["sw1", "10.0.0.1/24", "Vlan10"]]) rfl⟩

/-- C5 counterexample: a scanned interface classified virtual but whose
`device` attribute is falsy produces no map entry (the guard on main.py
line 109 skips it). -/
theorem virtual_without_device_skipped :
    is_interface_virtual iface_nodev = true ∧
    build_virtual_interfaces_map [iface_nodev] = [] := by
  constructor <;> decide

/-- C5 (amended): for every scanned virtual interface whose `device`
attribute is truthy with a `name` attribute and which itself has a `name`
attribute, an entry keyed by the interface id and holding exactly the pair
(device name, interface name) is added to the virtual-interface map. -/
theorem vmap_entry_added (m : VMap) (i : Interface) (d : Device) (dn nm : String)
    (hv : is_interface_virtual i = true) (hd : i.device = some d)
    (hdn : d.name = some dn) (hnm : i.name = some nm) :
    scanIfaceStep m i = (i.id, (dn, nm)) :: m := by
  simp [scanIfaceStep, hv, hd, hdn, hnm]

/-- Witness for C5's amended theorem at a concrete virtual interface. -/
theorem vmap_entry_added_witness :
    is_interface_virtual iface1 = true ∧
    iface1.device = some { name := some "sw1" } ∧
    scanIfaceStep [] iface1 = [(1, ("sw1", "Vlan10"))] :=
  ⟨by decide, rfl,
    vmap_entry_added [] iface1 { name := some "sw1" } "sw1" "Vlan10"
      (by decide) rfl rfl rfl⟩

/- Run-level helper lemmas. -/

/-- Once the env check and the connection test pass, the run finishes
normally and the `finally` block writes from an empty row list. -/
theorem runMain_main_path (w : World) (h1 : envOk w.env = true)
    (h2 : w.connect_ok = true) :
    (runMain w).exit = ExitStatus.finished ∧
    (runMain w).output = write_csv [] w.file_exists := by
  simp only [runMain, h1, h2]
  constructor <;> rfl

/-- Normal form of the event trace on the main path. -/
theorem runMain_events (w : World) (h1 : envOk w.env = true)
    (h2 : w.connect_ok = true) :
    (runMain w).events =
      Event.apiStatus :: Event.fetchInterfaces ::
        ((fetchItems w.interfaces).map (fun i => Event.scanInterface i.id) ++
         (if fetchFailed w.interfaces = true then []
          else if build_virtual_interfaces_map (fetchItems w.interfaces) = [] then []
          else Event.fetchIPs ::
            (fetchItems w.ips).map (fun ip => Event.scanIP ip.address))) := by
  simp [runMain, h1, h2]
  split
  · simp
  · split
    · simp
    · simp

/-- A list of IP-scan events has no IP-fetch and no interface-scan event. -/
theorem noIpFetchOrIfaceScan_scanIPs (l : List IPAddress) :
    noIpFetchOrIfaceScan (l.map (fun ip => Event.scanIP ip.address)) = true := by
  induction l with
  | nil => rfl
  | cons a t ih => exact ih

/-- Interface-scan events pass through `ifaceScansDone`. -/
theorem ifaceScansDone_scans (ifs : List Interface) (t : List Event) :
    ifaceScansDone ((ifs.map (fun i => Event.scanInterface i.id)) ++ t) =
      ifaceScansDone t := by
  induction ifs with
  | nil => rfl
  | cons a r ih => exact ih

/-- A list of interface-scan events has no IP activity. -/
theorem ipActivityFree_scans (ifs : List Interface) :
    ipActivityFree (ifs.map (fun i => Event.scanInterface i.id)) = true := by
  induction ifs with
  | nil => rfl
  | cons a r ih => exact ih

/- Remaining claim theorems. -/

/-- C1 (code bug): on a run that completes data collection with one virtual
interface carrying one assigned IP, the joined result per the spec has one
data row, yet the program writes a header-only file: `csv_data_rows` is never
populated because the combine step of this revision is an elided placeholder
comment. -/
theorem join_rows_never_written :
    (runMain w1).exit = ExitStatus.finished ∧
    (runMain w1).output = some [header] ∧
    joined_rows (build_virtual_interfaces_map [iface1])
      (build_interface_to_ips_map (build_virtual_interfaces_map [iface1]) [ip1]) =
      [["sw1", "10.0.0.1/24", "Vlan10"]] := by
  refine ⟨?_, ?_, ?_⟩ <;> decide

/-- C6: when an exception is raised during data fetching, the run still
finishes normally (the exception is caught) and the CSV-writing step of the
`finally` block executes, writing the rows collected so far (none in this
revision), i.e. a header-only file when the output file does not exist, and
nothing otherwise. -/
theorem fetch_error_csv_still_written (w : World) (h1 : envOk w.env = true)
    (h2 : w.connect_ok = true) (h3 : errorRaised w = true) :
    (runMain w).exit = ExitStatus.finished ∧
    (runMain w).output = (if w.file_exists = true then none else some [header]) := by
  obtain ⟨he, ho⟩ := runMain_main_path w h1 h2
  refine ⟨he, ?_⟩
  rw [ho]
  cases hf : w.file_exists <;> simp [write_csv, hf]

/-- Witness for C6 at a run whose interface fetch raises a request error. -/
theorem fetch_error_csv_still_written_witness :
    errorRaised w6 = true ∧
    ((runMain w6).exit = ExitStatus.finished ∧
     (runMain w6).output = (if w6.file_exists = true then none else some [header])) :=
  ⟨by decide, fetch_error_csv_still_written w6 (by decide) rfl (by decide)⟩

/-- C7: on every run that passes the env check and the connection test, the
interface scan completes before the single IP-collection fetch (never a
second or per-interface fetch), and every fetched interface record is
scanned, the filtering being client-side. -/
theorem pipeline_order (w : World) (h1 : envOk w.env = true)
    (h2 : w.connect_ok = true) :
    ifaceScansDone (runMain w).events = true ∧ allScanned w = true := by
  have hev := runMain_events w h1 h2
  constructor
  · rw [hev]
    show ifaceScansDone
      ((fetchItems w.interfaces).map (fun i => Event.scanInterface i.id) ++ _) = true
    rw [ifaceScansDone_scans]
    split
    · rfl
    · split
      · rfl
      · exact noIpFetchOrIfaceScan_scanIPs (fetchItems w.ips)
  · rw [allScanned, List.all_eq_true]
    intro i hi
    rw [decide_eq_true_eq, hev]
    refine List.mem_cons_of_mem _ (List.mem_cons_of_mem _ ?_)
    exact List.mem_append_left _ (List.mem_map_of_mem _ hi)

/-- Witness for C7 at a successful two-interface run. -/
theorem pipeline_order_witness :
    envOk w7.env = true ∧
    (ifaceScansDone (runMain w7).events = true ∧ allScanned w7 = true) :=
  ⟨by decide, pipeline_order w7 (by decide) rfl⟩

/-- C8: with `NETBOX_URL` or `NETBOX_TOKEN` unset, the run prints the error
message and exits with status 1, its trace containing no API event. -/
theorem missing_env_exits (w : World)
    (h : w.env.netbox_url = none ∨ w.env.netbox_token = none) :
    (runMain w).exit = ExitStatus.exited 1 ∧
    (runMain w).events = [Event.printedEnvError] := by
  have henv : envOk w.env = false := by
    rcases h with h | h <;> simp [envOk, truthyStr, h]
  simp [runMain, henv]

/-- Witness for C8 with `NETBOX_URL` unset. -/
theorem missing_env_exits_witness :
    w8.env.netbox_url = none ∧
    ((runMain w8).exit = ExitStatus.exited 1 ∧
     (runMain w8).events = [Event.printedEnvError]) :=
  ⟨rfl, missing_env_exits w8 (Or.inl rfl)⟩

/-- C9: when the interface scan builds an empty virtual-interface map, the
run neither fetches nor scans the IP collection, and it creates a header-only
file exactly when the output file does not already exist. -/
theorem no_virtual_early_return (w : World) (l : List Interface)
    (h1 : envOk w.env = true) (h2 : w.connect_ok = true)
    (h3 : w.interfaces = FetchOutcome.ok l)
    (h4 : build_virtual_interfaces_map l = []) :
    ipActivityFree (runMain w).events = true ∧
    (runMain w).output = (if w.file_exists = true then none else some [header]) := by
  have hev := runMain_events w h1 h2
  have hfi : fetchItems w.interfaces = l := by rw [h3]; rfl
  have hff : fetchFailed w.interfaces = false := by rw [h3]; rfl
  constructor
  · rw [hev, hfi, hff, h4]
    simp only [Bool.false_eq_true, if_false, if_pos rfl]
    show ipActivityFree ((l.map fun i => Event.scanInterface i.id) ++ []) = true
    rw [List.append_nil]
    exact ipActivityFree_scans l
  · obtain ⟨_, ho⟩ := runMain_main_path w h1 h2
    rw [ho]
    cases hf : w.file_exists <;> simp [write_csv, hf]

/-- Witness for C9 at a run scanning only a physical interface. -/
theorem no_virtual_early_return_witness :
    build_virtual_interfaces_map [iface_phys] = [] ∧
    (ipActivityFree (runMain w9).events = true ∧
     (runMain w9).output = (if w9.file_exists = true then none else some [header])) :=
  ⟨by decide, no_virtual_early_return w9 [iface_phys] (by decide) rfl rfl (by decide)⟩

/-- C10: when the output file already exists and no data rows were collected
(which in this revision is every run), the file is not touched: neither
branch of the `finally` block writes. -/
theorem existing_file_untouched (w : World) (h : w.file_exists = true) :
    (runMain w).output = none := by
  unfold runMain
  split
  · rfl
  · split
    · rfl
    · simp [write_csv, h]

/-- Witness for C10 at a successful run with a pre-existing file. -/
theorem existing_file_untouched_witness :
    w10.file_exists = true ∧ (runMain w10).output = none :=
  ⟨rfl, existing_file_untouched w10 rfl⟩

end Netbox
